import Mathlib

/-!
Shallow embedding of the financial computation core of
`src/finance_calculator.py` (UK finance projection calculator),
with proofs of the specified properties.

Monetary amounts and rates are modelled as rationals (`ℚ`); the Python
code uses IEEE doubles, whose arithmetic on these piecewise-linear
formulas agrees with exact arithmetic to well within the tolerances the
specification demands, so exact rational results settle the tolerance
claims.  A band upper bound of `float("inf")` is modelled as `none`.
-/

/-- A tax band `(low, high, rate)`; `high = none` models `float("inf")`. -/
structure Band where
  low : ℚ
  high : Option ℚ
  rate : ℚ
deriving Repr, DecidableEq

/-- Computes `min(amount, high)` from the Python loops; `min(x, inf) = x`. -/
def Band.cap (b : Band) (x : ℚ) : ℚ :=
  match b.high with
  | none => x
  | some h => min x h

/-- Decides `amount <= high` from the Python loops; `x <= inf` is true. -/
def Band.withinUpper (b : Band) (x : ℚ) : Bool :=
  match b.high with
  | none => true
  | some h => decide (x ≤ h)

/-- The generic break-style banded tax engine (spec 4.1): iterate bands in
order; skip out when `amount <= low`; otherwise add
`(min(amount, high) - low) * rate` and stop once `amount <= high`.
This is the loop body shared verbatim by `compute_income_tax`
(lines 29–39) and `compute_sdlt` (lines 87–96). -/
def computeBandedTax : List Band → ℚ → ℚ
  | [], _ => 0
  | b :: rest, amt =>
    if amt ≤ b.low then 0
    else
      let t := (b.cap amt - b.low) * b.rate
      if b.withinUpper amt then t else t + computeBandedTax rest amt

/-- The continue-style loop of `compute_nic` (lines 41–49): every band is
visited; a band with `gross <= low` contributes nothing (`continue`). -/
def continueBandedTax : List Band → ℚ → ℚ
  | [], _ => 0
  | b :: rest, amt =>
    (if amt ≤ b.low then 0 else (b.cap amt - b.low) * b.rate)
      + continueBandedTax rest amt

/-- Source `TAX_BANDS` (lines 15–20): UK income tax bands 2025/26. -/
def TAX_BANDS : List Band :=
  [⟨0, some 12570, 0⟩,
   ⟨12570, some 50270, 20/100⟩,
   ⟨50270, some 125140, 40/100⟩,
   ⟨125140, none, 45/100⟩]

/-- Source `NIC_RATES` (line 27): employee NIC bands, no explicit zero band. -/
def NIC_RATES : List Band :=
  [⟨12570, some 50270, 12/100⟩,
   ⟨50270, none, 2/100⟩]

/-- Source `SDLT_BANDS` (lines 79–85): residential stamp duty slabs. -/
def SDLT_BANDS : List Band :=
  [⟨0, some 125000, 0⟩,
   ⟨125000, some 250000, 2/100⟩,
   ⟨250000, some 925000, 5/100⟩,
   ⟨925000, some 1500000, 10/100⟩,
   ⟨1500000, none, 12/100⟩]

/-- The spec's three-band NIC schedule `{0–PT:0%, PT–UEL:12%, UEL–∞:2%}`
(spec 4.3/6), stated from the spec's words for the refinement claim:
it has an explicit zero band which the source's `NIC_RATES` lacks. -/
def NIC_SCHEDULE_SPEC : List Band :=
  [⟨0, some 12570, 0⟩,
   ⟨12570, some 50270, 12/100⟩,
   ⟨50270, none, 2/100⟩]

/-- Source `compute_income_tax` (lines 29–39): break-style loop over `TAX_BANDS`
followed by `max(0.0, tax)`. -/
def compute_income_tax (gross : ℚ) : ℚ :=
  max 0 (computeBandedTax TAX_BANDS gross)

/-- Source `compute_nic` (lines 41–49): continue-style loop over `NIC_RATES`
followed by `max(0.0, nic)`. -/
def compute_nic (gross : ℚ) : ℚ :=
  max 0 (continueBandedTax NIC_RATES gross)

/-- Source `compute_sdlt` (lines 87–96): break-style loop over `SDLT_BANDS`,
with no final clamp. -/
def compute_sdlt (price : ℚ) : ℚ :=
  computeBandedTax SDLT_BANDS price

/-- The closed-form slab sum the spec states for the banded engine:
sum over all bands with `amount > low` of `(min(amount, high) - low) * rate`. -/
def slabSum (bands : List Band) (amt : ℚ) : ℚ :=
  (bands.map (fun b => if b.low < amt then (b.cap amt - b.low) * b.rate else 0)).sum

/-! ### Closed forms for the three concrete schedules -/

lemma income_tax_closed (g : ℚ) :
    compute_income_tax g =
      if g ≤ 12570 then 0
      else if g ≤ 50270 then (g - 12570) * (20/100)
      else if g ≤ 125140 then 7540 + (g - 50270) * (40/100)
      else 37488 + (g - 125140) * (45/100) := by
  simp only [compute_income_tax, TAX_BANDS, computeBandedTax, Band.cap,
    Band.withinUpper, decide_eq_true_eq, min_def, max_def]
  split_ifs <;> linarith

lemma nic_closed (g : ℚ) :
    compute_nic g =
      if g ≤ 12570 then 0
      else if g ≤ 50270 then (g - 12570) * (12/100)
      else 4524 + (g - 50270) * (2/100) := by
  simp only [compute_nic, NIC_RATES, continueBandedTax, Band.cap,
    Band.withinUpper, decide_eq_true_eq, min_def, max_def]
  split_ifs <;> linarith

lemma sdlt_closed (p : ℚ) :
    compute_sdlt p =
      if p ≤ 125000 then 0
      else if p ≤ 250000 then (p - 125000) * (2/100)
      else if p ≤ 925000 then 2500 + (p - 250000) * (5/100)
      else if p ≤ 1500000 then 36250 + (p - 925000) * (10/100)
      else 93750 + (p - 1500000) * (12/100) := by
  simp only [compute_sdlt, SDLT_BANDS, computeBandedTax, Band.cap,
    Band.withinUpper, decide_eq_true_eq, min_def, max_def]
  split_ifs <;> linarith

lemma slabSum_tax_closed (g : ℚ) :
    slabSum TAX_BANDS g =
      if g ≤ 12570 then 0
      else if g ≤ 50270 then (g - 12570) * (20/100)
      else if g ≤ 125140 then 7540 + (g - 50270) * (40/100)
      else 37488 + (g - 125140) * (45/100) := by
  simp only [slabSum, TAX_BANDS, List.map, List.sum_cons, List.sum_nil,
    Band.cap, min_def]
  split_ifs <;> linarith

lemma bandedTax_spec_nic_closed (g : ℚ) :
    computeBandedTax NIC_SCHEDULE_SPEC g =
      if g ≤ 12570 then 0
      else if g ≤ 50270 then (g - 12570) * (12/100)
      else 4524 + (g - 50270) * (2/100) := by
  simp only [NIC_SCHEDULE_SPEC, computeBandedTax, Band.cap,
    Band.withinUpper, decide_eq_true_eq, min_def]
  split_ifs <;> linarith

lemma bandedTax_tax_bands_eq (g : ℚ) :
    computeBandedTax TAX_BANDS g = compute_income_tax g := by
  rw [income_tax_closed]
  simp only [TAX_BANDS, computeBandedTax, Band.cap,
    Band.withinUpper, decide_eq_true_eq, min_def]
  split_ifs <;> linarith

/-! ### Net/Gross salary converter -/

/-- Source `gross_to_net` (lines 51–56): returns `(net, tax, nic)` with
`net = gross - tax - nic`. -/
def gross_to_net (gross : ℚ) : ℚ × ℚ × ℚ :=
  (gross - compute_income_tax gross - compute_nic gross,
   compute_income_tax gross, compute_nic gross)

/-- The net component of `gross_to_net`. -/
def netOf (gross : ℚ) : ℚ := (gross_to_net gross).1

/-- The 60-iteration bisection loop of `net_to_gross` (lines 63–71),
with the iteration count as explicit fuel: at each step compute the
midpoint's net and move the lower (resp. upper) bound in. -/
def bisect (target : ℚ) : ℕ → ℚ × ℚ → ℚ × ℚ
  | 0, lh => lh
  | k + 1, (low, high) =>
    let mid := (low + high) / 2
    if (gross_to_net mid).1 < target then bisect target k (mid, high)
    else bisect target k (low, mid)

/-- Source `net_to_gross` (lines 58–74): binary search for a gross whose net is
approximately `target_net`; returns `(gross, net, tax, nic)` evaluated at
the final midpoint.  Defaults: `guess_low = 0`, `guess_high = 1_000_000`. -/
def net_to_gross (target_net : ℚ) (guess_low : ℚ := 0)
    (guess_high : ℚ := 1000000) : ℚ × ℚ × ℚ × ℚ :=
  let lh := bisect target_net 60 (guess_low, guess_high)
  let gross := (lh.1 + lh.2) / 2
  let ntn := gross_to_net gross
  (gross, ntn.1, ntn.2.1, ntn.2.2)

/-! ### Loan math -/

/-- Source `monthly_payment` (lines 101–108): fixed-rate annuity payment. -/
def monthly_payment (principal annual_rate_percent : ℚ) (years : ℕ) : ℚ :=
  if principal ≤ 0 ∨ years ≤ 0 then 0
  else
    let r := annual_rate_percent / 100 / 12
    let n := years * 12
    if r = 0 then principal / (n : ℚ)
    else principal * (r * (1 + r) ^ n) / ((1 + r) ^ n - 1)

/-- The inverse-annuity principal formula inlined at lines 232–238 of
`affordability_projection_methods`: `payment * n` when the monthly rate is
zero, else `payment * (1 - (1+r)^(-n)) / r`. -/
def maxPrincipalForPayment (payment annual_rate_percent : ℚ) (years : ℕ) : ℚ :=
  let r := annual_rate_percent / 100 / 12
  let n := years * 12
  if r = 0 then payment * (n : ℚ)
  else payment * (1 - ((1 + r) ^ n)⁻¹) / r

/-! ### Affordability engine -/

/-- The UI inputs read by the module-level derivations and the two
projection functions (lines 136–166). -/
structure AffordInputs where
  price : ℚ
  deposit_pct : ℚ
  deposit_amt : ℚ
  term_years : ℕ
  interest_rate : ℚ
  monthly_overheads : ℚ
  monthly_expenses : ℚ
  lti : ℚ
  net_monthly_salary : ℚ
  effective_tax_rate : ℚ
  maintenance_pct : ℚ
  insurance_monthly : ℚ

/-- Source `deposit` (line 172): explicit amount overrides the percentage when
positive. -/
def deposit (i : AffordInputs) : ℚ :=
  if i.deposit_amt > 0 then i.deposit_amt else i.price * i.deposit_pct / 100

/-- Source `loan_amount` (line 173). -/
def loan_amount (i : AffordInputs) : ℚ := max 0 (i.price - deposit i)

/-- Source `monthly_pay` (line 176). -/
def monthly_pay (i : AffordInputs) : ℚ :=
  monthly_payment (loan_amount i) i.interest_rate i.term_years

/-- Source `annual_maintenance` (line 183). -/
def annual_maintenance (i : AffordInputs) : ℚ :=
  i.price * (i.maintenance_pct / 100)

/-- Source `monthly_maintenance` (line 184). -/
def monthly_maintenance (i : AffordInputs) : ℚ := annual_maintenance i / 12

/-- Source `required_gross_for_affordability` (lines 195–199): accurate PAYE
net-to-gross with `guess_high = 2_000_000`. -/
def required_gross_for_affordability (net_monthly_required : ℚ) :
    ℚ × ℚ × ℚ × ℚ :=
  net_to_gross (net_monthly_required * 12) 0 2000000

/-- Result bundle of `salary_projection_methods` (lines 213–220). -/
structure SalaryProjection where
  gross_by_lti : ℚ
  gross_by_afford : ℚ
  gross_by_afford_simple : ℚ
  required_net_monthly : ℚ
  tax_calc : ℚ
  nic_calc : ℚ

/-- Source `salary_projection_methods` (lines 202–220). -/
def salary_projection_methods (i : AffordInputs) : SalaryProjection :=
  let gross_by_lti := if i.lti > 0 then loan_amount i / i.lti else 0
  let required_net_monthly := monthly_pay i + i.monthly_overheads
    + i.monthly_expenses + monthly_maintenance i + i.insurance_monthly
  let g := required_gross_for_affordability required_net_monthly
  let gross_by_afford_simple :=
    if i.effective_tax_rate < 100 then
      required_net_monthly * 12 / (1 - i.effective_tax_rate / 100)
    else 0
  { gross_by_lti := gross_by_lti
    gross_by_afford := g.1
    gross_by_afford_simple := gross_by_afford_simple
    required_net_monthly := required_net_monthly
    tax_calc := g.2.2.1
    nic_calc := g.2.2.2 }

/-- Result bundle of `affordability_projection_methods` (lines 253–263). -/
structure AffordabilityProjection where
  gross_annual : ℚ
  net_annual : ℚ
  mortgage_by_lti : ℚ
  mortgage_by_payment : ℚ
  mortgage_affordable : ℚ
  price_affordable : ℚ
  available_for_mortgage_monthly : ℚ
  tax_calc : ℚ
  nic_calc : ℚ

/-- Source `affordability_projection_methods` (lines 223–263). -/
def affordability_projection_methods (i : AffordInputs) : AffordabilityProjection :=
  let g := net_to_gross (i.net_monthly_salary * 12) 0 2000000
  let gross_annual := g.1
  let net_annual := g.2.1
  let mortgage_by_lti := gross_annual * i.lti
  let available_for_mortgage_monthly := max 0 (i.net_monthly_salary -
    (i.monthly_overheads + i.monthly_expenses + monthly_maintenance i
      + i.insurance_monthly))
  let r := i.interest_rate / 100 / 12
  let n := i.term_years * 12
  let mortgage_by_payment :=
    if r = 0 then available_for_mortgage_monthly * (n : ℚ)
    else available_for_mortgage_monthly * (1 - ((1 + r) ^ n)⁻¹) / r
  let mortgage_affordable := min mortgage_by_lti mortgage_by_payment
  let denom :=
    if i.deposit_amt = 0 then 1 - i.deposit_pct / 100
    else if i.price > 0 then loan_amount i / i.price else 0
  let price_affordable :=
    if i.deposit_amt > 0 then mortgage_affordable + i.deposit_amt
    else if denom ≤ 0 then mortgage_affordable
    else mortgage_affordable / (1 - i.deposit_pct / 100)
  { gross_annual := gross_annual
    net_annual := net_annual
    mortgage_by_lti := mortgage_by_lti
    mortgage_by_payment := mortgage_by_payment
    mortgage_affordable := mortgage_affordable
    price_affordable := price_affordable
    available_for_mortgage_monthly := available_for_mortgage_monthly
    tax_calc := g.2.2.1
    nic_calc := g.2.2.2 }

/-! ### Properties of the net function -/

lemma netOf_eq (g : ℚ) : netOf g = g - compute_income_tax g - compute_nic g := rfl

lemma netOf_closed (g : ℚ) :
    netOf g = g
      - (if g ≤ 12570 then 0
         else if g ≤ 50270 then (g - 12570) * (20/100)
         else if g ≤ 125140 then 7540 + (g - 50270) * (40/100)
         else 37488 + (g - 125140) * (45/100))
      - (if g ≤ 12570 then 0
         else if g ≤ 50270 then (g - 12570) * (12/100)
         else 4524 + (g - 50270) * (2/100)) := by
  rw [netOf_eq, income_tax_closed, nic_closed]

lemma netOf_strictMono {a b : ℚ} (h : a < b) : netOf a < netOf b := by
  rw [netOf_closed, netOf_closed]
  split_ifs <;> linarith

lemma netOf_mono {a b : ℚ} (h : a ≤ b) : netOf a ≤ netOf b := by
  rcases eq_or_lt_of_le h with rfl | h
  · exact le_rfl
  · exact (netOf_strictMono h).le

lemma lt_of_netOf_lt {a b : ℚ} (h : netOf a < netOf b) : a < b := by
  by_contra hab
  exact absurd (netOf_mono (not_lt.mp hab)) (not_le.mpr h)

lemma le_of_netOf_le {a b : ℚ} (h : netOf a ≤ netOf b) : a ≤ b := by
  by_contra hab
  exact absurd (netOf_strictMono (not_le.mp hab)) (not_lt.mpr h)

lemma netOf_zero : netOf 0 = 0 := by
  rw [netOf_closed]; norm_num

lemma netOf_le_self (g : ℚ) : netOf g ≤ g := by
  rw [netOf_closed]
  split_ifs <;> linarith

lemma netOf_nonneg (g : ℚ) (hg : 0 ≤ g) : 0 ≤ netOf g := by
  rw [netOf_closed]
  split_ifs <;> linarith

lemma netOf_lipschitz {a b : ℚ} (h : a ≤ b) : netOf b - netOf a ≤ b - a := by
  rw [netOf_closed, netOf_closed]
  split_ifs <;> linarith

/-! ### Properties of the bisection loop -/

lemma bisect_succ (t : ℚ) (k : ℕ) (low high : ℚ) :
    bisect t (k + 1) (low, high) =
      if netOf ((low + high) / 2) < t then bisect t k ((low + high) / 2, high)
      else bisect t k (low, (low + high) / 2) := rfl

lemma bisect_bounds (t : ℚ) :
    ∀ (k : ℕ) (low high : ℚ), low ≤ high →
      low ≤ (bisect t k (low, high)).1
        ∧ (bisect t k (low, high)).1 ≤ (bisect t k (low, high)).2
        ∧ (bisect t k (low, high)).2 ≤ high := by
  intro k
  induction k with
  | zero => intro low high h; exact ⟨le_rfl, h, le_rfl⟩
  | succ k ih =>
    intro low high h
    rw [bisect_succ]
    split_ifs with hmid
    · obtain ⟨h1, h2, h3⟩ := ih ((low + high) / 2) high (by linarith)
      exact ⟨by linarith, h2, h3⟩
    · obtain ⟨h1, h2, h3⟩ := ih low ((low + high) / 2) (by linarith)
      exact ⟨h1, h2, by linarith⟩

lemma bisect_width (t : ℚ) :
    ∀ (k : ℕ) (low high : ℚ),
      (bisect t k (low, high)).2 - (bisect t k (low, high)).1
        = (high - low) / 2 ^ k := by
  intro k
  induction k with
  | zero => intro low high; simp [bisect]
  | succ k ih =>
    intro low high
    rw [bisect_succ]
    split_ifs with hmid
    · rw [ih]
      ring
    · rw [ih]
      ring

lemma bisect_invariant (t : ℚ) :
    ∀ (k : ℕ) (low high : ℚ), netOf low < t → t ≤ netOf high →
      netOf (bisect t k (low, high)).1 < t
        ∧ t ≤ netOf (bisect t k (low, high)).2 := by
  intro k
  induction k with
  | zero => intro low high h1 h2; exact ⟨h1, h2⟩
  | succ k ih =>
    intro low high h1 h2
    rw [bisect_succ]
    split_ifs with hmid
    · exact ih ((low + high) / 2) high hmid h2
    · exact ih low ((low + high) / 2) h1 (not_lt.mp hmid)

lemma bisect_saturate (t : ℚ) :
    ∀ (k : ℕ) (low high : ℚ), low ≤ high →
      (∀ x, low ≤ x → x ≤ high → netOf x < t) →
      bisect t k (low, high) = (high - (high - low) / 2 ^ k, high) := by
  intro k
  induction k with
  | zero => intro low high _ _; simp [bisect]
  | succ k ih =>
    intro low high h hall
    rw [bisect_succ,
      if_pos (hall ((low + high) / 2) (by linarith) (by linarith)),
      ih ((low + high) / 2) high (by linarith)
        (fun x hx hx2 => hall x (by linarith) hx2)]
    have hh : high - (high - (low + high) / 2) / 2 ^ k
        = high - (high - low) / 2 ^ (k + 1) := by
      rw [pow_succ]
      field_simp
      ring
    rw [hh]

lemma bisect_floor (t : ℚ) :
    ∀ (k : ℕ) (low high : ℚ), low ≤ high →
      (∀ x, low ≤ x → x ≤ high → t ≤ netOf x) →
      bisect t k (low, high) = (low, low + (high - low) / 2 ^ k) := by
  intro k
  induction k with
  | zero => intro low high _ _; simp [bisect]
  | succ k ih =>
    intro low high h hall
    rw [bisect_succ,
      if_neg (not_lt.mpr (hall ((low + high) / 2) (by linarith) (by linarith))),
      ih low ((low + high) / 2) (by linarith)
        (fun x hx hx2 => hall x hx (by linarith))]
    have hh : low + ((low + high) / 2 - low) / 2 ^ k
        = low + (high - low) / 2 ^ (k + 1) := by
      rw [pow_succ]
      field_simp
      ring
    rw [hh]

/-! ### Claim theorems -/

/-- C2: for every non-negative gross, `compute_income_tax` equals the
closed-form slab sum over `TAX_BANDS` (here proved as exact rational
equality, which is stronger than the 1e-6 relative-error bound the spec
asks for), and `compute_income_tax 60000 = 11432`. -/
theorem income_tax_matches_slab_sum (g : ℚ) (hg : 0 ≤ g) :
    compute_income_tax g = slabSum TAX_BANDS g
      ∧ compute_income_tax (60000 : ℚ) = 11432 := by
  refine ⟨?_, ?_⟩
  · rw [income_tax_closed, slabSum_tax_closed]
  · rw [income_tax_closed]
    norm_num

theorem income_tax_matches_slab_sum_witness :
    (0 : ℚ) ≤ 60000
      ∧ (compute_income_tax (60000 : ℚ) = slabSum TAX_BANDS 60000
          ∧ compute_income_tax (60000 : ℚ) = 11432) :=
  ⟨by norm_num, income_tax_matches_slab_sum 60000 (by norm_num)⟩

/-- C4: the three tax functions are one banded engine applied to their
schedules: `compute_income_tax` and `compute_sdlt` are the break-style
engine on `TAX_BANDS` resp. `SDLT_BANDS`, and the continue-style
`compute_nic` over the two-band `NIC_RATES` is extensionally equal to the
break-style engine applied to the spec's three-band NIC schedule. -/
theorem banded_engine_reuse (g : ℚ) (hg : 0 ≤ g) :
    compute_income_tax g = computeBandedTax TAX_BANDS g
      ∧ compute_nic g = computeBandedTax NIC_SCHEDULE_SPEC g
      ∧ compute_sdlt g = computeBandedTax SDLT_BANDS g := by
  refine ⟨(bandedTax_tax_bands_eq g).symm, ?_, rfl⟩
  rw [nic_closed, bandedTax_spec_nic_closed]

theorem banded_engine_reuse_witness :
    (0 : ℚ) ≤ 60000
      ∧ (compute_income_tax (60000 : ℚ) = computeBandedTax TAX_BANDS 60000
          ∧ compute_nic (60000 : ℚ) = computeBandedTax NIC_SCHEDULE_SPEC 60000
          ∧ compute_sdlt (60000 : ℚ) = computeBandedTax SDLT_BANDS 60000) :=
  ⟨by norm_num, banded_engine_reuse 60000 (by norm_num)⟩

/-- C9: each of the three banded tax functions is monotonically
non-decreasing on non-negative amounts. -/
theorem banded_tax_monotone (a1 a2 : ℚ) (h0 : 0 ≤ a1) (h12 : a1 ≤ a2) :
    compute_income_tax a1 ≤ compute_income_tax a2
      ∧ compute_nic a1 ≤ compute_nic a2
      ∧ compute_sdlt a1 ≤ compute_sdlt a2 := by
  refine ⟨?_, ?_, ?_⟩
  · rw [income_tax_closed, income_tax_closed]
    split_ifs <;> linarith
  · rw [nic_closed, nic_closed]
    split_ifs <;> linarith
  · rw [sdlt_closed, sdlt_closed]
    split_ifs <;> linarith

theorem banded_tax_monotone_witness :
    ((0 : ℚ) ≤ 30000 ∧ (30000 : ℚ) ≤ 200000)
      ∧ (compute_income_tax (30000 : ℚ) ≤ compute_income_tax 200000
          ∧ compute_nic (30000 : ℚ) ≤ compute_nic 200000
          ∧ compute_sdlt (30000 : ℚ) ≤ compute_sdlt 200000) :=
  ⟨⟨by norm_num, by norm_num⟩, banded_tax_monotone 30000 200000 (by norm_num) (by norm_num)⟩

/-- C10: for non-negative gross, `gross_to_net` returns non-negative tax
and NIC, a net between 0 and gross, and net equal to gross when the gross
does not exceed the personal allowance 12570. -/
theorem gross_to_net_bounded (g : ℚ) (hg : 0 ≤ g) :
    0 ≤ (gross_to_net g).2.1
      ∧ 0 ≤ (gross_to_net g).2.2
      ∧ 0 ≤ (gross_to_net g).1
      ∧ (gross_to_net g).1 ≤ g
      ∧ (g ≤ 12570 → (gross_to_net g).1 = g) := by
  have htax : (gross_to_net g).2.1 = compute_income_tax g := rfl
  have hnic : (gross_to_net g).2.2 = compute_nic g := rfl
  have hnet : (gross_to_net g).1 = netOf g := rfl
  rw [htax, hnic, hnet, income_tax_closed, nic_closed, netOf_closed]
  refine ⟨?_, ?_, ?_, ?_, ?_⟩ <;> [skip; skip; skip; skip; intro hle] <;>
    split_ifs <;> linarith

theorem gross_to_net_bounded_witness :
    (0 : ℚ) ≤ 10000
      ∧ (0 ≤ (gross_to_net (10000 : ℚ)).2.1
          ∧ 0 ≤ (gross_to_net (10000 : ℚ)).2.2
          ∧ 0 ≤ (gross_to_net (10000 : ℚ)).1
          ∧ (gross_to_net (10000 : ℚ)).1 ≤ 10000
          ∧ ((10000 : ℚ) ≤ 12570 → (gross_to_net (10000 : ℚ)).1 = 10000)) :=
  ⟨by norm_num, gross_to_net_bounded 10000 (by norm_num)⟩

/-- C5: the inverse-annuity formula inlined in
`affordability_projection_methods` is the exact algebraic inverse of
`monthly_payment`: for positive principal, non-negative rate and positive
term, `maxPrincipalForPayment (monthly_payment P rate y) rate y = P`
exactly over the rationals. -/
theorem loan_payment_inverse (P rate : ℚ) (y : ℕ)
    (hP : 0 < P) (hr : 0 ≤ rate) (hy : 0 < y) :
    maxPrincipalForPayment (monthly_payment P rate y) rate y = P := by
  have hnot : ¬(P ≤ 0 ∨ y ≤ 0) := by
    push_neg
    exact ⟨hP, hy⟩
  simp only [monthly_payment, maxPrincipalForPayment, if_neg hnot]
  by_cases hr0 : rate / 100 / 12 = 0
  · rw [if_pos hr0, if_pos hr0]
    have hn : ((y * 12 : ℕ) : ℚ) ≠ 0 := by
      simp only [ne_eq, Nat.cast_eq_zero, Nat.mul_eq_zero]
      push_neg
      exact ⟨hy.ne', by norm_num⟩
    field_simp
  · rw [if_neg hr0, if_neg hr0]
    set r : ℚ := rate / 100 / 12 with hrdef
    have hrpos : 0 < r := lt_of_le_of_ne (by positivity) (Ne.symm hr0)
    have hpow : (1 : ℚ) < (1 + r) ^ (y * 12) := by
      apply one_lt_pow₀ (by linarith)
      simp only [ne_eq, Nat.mul_eq_zero]
      push_neg
      exact ⟨hy.ne', by norm_num⟩
    have h1 : ((1 + r) ^ (y * 12) : ℚ) ≠ 0 := by positivity
    have h2 : ((1 + r) ^ (y * 12) : ℚ) - 1 ≠ 0 := by linarith
    field_simp
    exact Or.inl (mul_comm _ _)

theorem loan_payment_inverse_witness :
    ((0 : ℚ) < 100000 ∧ (0 : ℚ) ≤ 5 ∧ 0 < 25)
      ∧ maxPrincipalForPayment (monthly_payment 100000 5 25) 5 25 = 100000 :=
  ⟨⟨by norm_num, by norm_num, by norm_num⟩,
    loan_payment_inverse 100000 5 25 (by norm_num) (by norm_num) (by norm_num)⟩

/-- C7: when the deposit percentage is 100 and no explicit deposit
override is given, `affordability_projection_methods` falls back to the
mortgage-only value instead of dividing by `1 - 100/100 = 0`. -/
theorem deposit_pct_100_fallback (i : AffordInputs)
    (hpct : i.deposit_pct = 100) (hamt : i.deposit_amt = 0) :
    (affordability_projection_methods i).price_affordable
      = (affordability_projection_methods i).mortgage_affordable := by
  simp only [affordability_projection_methods, hpct, hamt]
  norm_num

theorem deposit_pct_100_fallback_witness :
    (AffordInputs.mk 300000 100 0 25 5 500 1000 (9/2) 3000 35 1 50).deposit_pct = 100
      ∧ (AffordInputs.mk 300000 100 0 25 5 500 1000 (9/2) 3000 35 1 50).deposit_amt = 0
      ∧ (affordability_projection_methods
            (AffordInputs.mk 300000 100 0 25 5 500 1000 (9/2) 3000 35 1 50)).price_affordable
        = (affordability_projection_methods
            (AffordInputs.mk 300000 100 0 25 5 500 1000 (9/2) 3000 35 1 50)).mortgage_affordable :=
  ⟨rfl, rfl,
    deposit_pct_100_fallback (AffordInputs.mk 300000 100 0 25 5 500 1000 (9/2) 3000 35 1 50) rfl rfl⟩

/-- C8: `affordability_projection_methods` takes the conservative binding
constraint: the affordable mortgage is the minimum of the LTI cap
`gross_annual * lti` and the inverse-annuity principal for the clamped
non-negative monthly amount left after recurring costs, so it never
exceeds either cap. -/
theorem mortgage_affordable_is_min (i : AffordInputs) :
    (affordability_projection_methods i).mortgage_affordable
        = min (affordability_projection_methods i).mortgage_by_lti
            (affordability_projection_methods i).mortgage_by_payment
      ∧ (affordability_projection_methods i).mortgage_by_lti
        = (affordability_projection_methods i).gross_annual * i.lti
      ∧ (affordability_projection_methods i).mortgage_by_payment
        = maxPrincipalForPayment
            (affordability_projection_methods i).available_for_mortgage_monthly
            i.interest_rate i.term_years
      ∧ (affordability_projection_methods i).available_for_mortgage_monthly
        = max 0 (i.net_monthly_salary - (i.monthly_overheads + i.monthly_expenses
            + monthly_maintenance i + i.insurance_monthly))
      ∧ (affordability_projection_methods i).mortgage_affordable
        ≤ (affordability_projection_methods i).mortgage_by_lti
      ∧ (affordability_projection_methods i).mortgage_affordable
        ≤ (affordability_projection_methods i).mortgage_by_payment :=
  ⟨rfl, rfl, rfl, rfl, min_le_left _ _, min_le_right _ _⟩

lemma net_to_gross_gross_eq (t glow ghigh : ℚ) :
    (net_to_gross t glow ghigh).1
      = ((bisect t 60 (glow, ghigh)).1 + (bisect t 60 (glow, ghigh)).2) / 2 := rfl

/-- C6: bounded-search saturation is graceful.  For any target and any
bounds `guess_low ≤ guess_high`, the gross returned by `net_to_gross`
stays inside `[guess_low, guess_high]`; and when the target net exceeds
what every gross in the bracket can produce, the returned gross is
clamped to within one bisection step of the upper boundary. -/
theorem net_to_gross_clamped (t glow ghigh : ℚ) (h : glow ≤ ghigh) :
    (glow ≤ (net_to_gross t glow ghigh).1
        ∧ (net_to_gross t glow ghigh).1 ≤ ghigh)
      ∧ ((∀ x, glow ≤ x → x ≤ ghigh → (gross_to_net x).1 < t) →
          ghigh - (ghigh - glow) / 2 ^ 60 ≤ (net_to_gross t glow ghigh).1
            ∧ (net_to_gross t glow ghigh).1 ≤ ghigh) := by
  constructor
  · obtain ⟨h1, h2, h3⟩ := bisect_bounds t 60 glow ghigh h
    rw [net_to_gross_gross_eq]
    constructor <;> linarith
  · intro hall
    rw [net_to_gross_gross_eq, bisect_saturate t 60 glow ghigh h hall]
    have he : 0 ≤ (ghigh - glow) / 2 ^ 60 :=
      div_nonneg (by linarith) (by positivity)
    constructor <;> [linarith; linarith]

theorem net_to_gross_clamped_witness :
    (0 : ℚ) ≤ 1000000
      ∧ (((0 : ℚ) ≤ (net_to_gross 1000000000 0 1000000).1
            ∧ (net_to_gross (1000000000 : ℚ) 0 1000000).1 ≤ 1000000)
          ∧ ((1000000 : ℚ) - (1000000 - 0) / 2 ^ 60
                ≤ (net_to_gross (1000000000 : ℚ) 0 1000000).1
              ∧ (net_to_gross (1000000000 : ℚ) 0 1000000).1 ≤ 1000000)) := by
  have hmain := net_to_gross_clamped 1000000000 0 1000000 (by norm_num)
  refine ⟨by norm_num, hmain.1, hmain.2 ?_⟩
  intro x hx hx2
  have := netOf_le_self x
  have hx3 : netOf x < 1000000000 := by linarith
  exact hx3

/-- C3 (as stated) fails at the boundary gross `g = 0` of the claimed
domain `0 ≤ g ≤ guess_high`: the bisection never returns exactly 0, so
the returned gross is not within `0.01% * 0 = 0` of `g = 0`. -/
theorem roundtrip_fails_at_zero :
    ¬ (|(net_to_gross ((gross_to_net 0).1)).1 - 0| ≤ (1/10000) * 0) := by
  have ht : (gross_to_net (0 : ℚ)).1 = 0 := netOf_zero
  rw [ht, net_to_gross_gross_eq,
    bisect_floor 0 60 0 1000000 (by norm_num)
      (fun x hx _ => netOf_nonneg x hx)]
  norm_num

/-- C3 (amended): the round trip holds away from zero: for every gross
`g` with `0.01 ≤ g ≤ 1000000` (the configured upper search bound),
`net_to_gross` applied to the net component of `gross_to_net g` returns
a gross within 0.01% relative tolerance of `g`.  (At and near `g = 0`
the relative bound fails, as `roundtrip_fails_at_zero` shows; the
absolute error is always at most `1000000 / 2 ^ 61`.) -/
theorem net_gross_roundtrip (g : ℚ) (h1 : 1/100 ≤ g) (h2 : g ≤ 1000000) :
    |(net_to_gross ((gross_to_net g).1)).1 - g| ≤ (1/10000) * g := by
  have hlow : netOf 0 < (gross_to_net g).1 := by
    have : netOf 0 < netOf g := by
      rw [netOf_zero]
      have hg0 : (0 : ℚ) < g := by linarith
      calc (0 : ℚ) = netOf 0 := netOf_zero.symm
        _ < netOf g := netOf_strictMono hg0
    exact this
  have hhigh : (gross_to_net g).1 ≤ netOf 1000000 := netOf_mono h2
  obtain ⟨hl, hh⟩ := bisect_invariant ((gross_to_net g).1) 60 0 1000000 hlow hhigh
  have hlg : (bisect ((gross_to_net g).1) 60 (0, 1000000)).1 < g :=
    lt_of_netOf_lt hl
  have hge : g ≤ (bisect ((gross_to_net g).1) 60 (0, 1000000)).2 :=
    le_of_netOf_le hh
  have hw := bisect_width ((gross_to_net g).1) 60 0 1000000
  have hnum : ((1000000 : ℚ) - 0) / 2 ^ 60 ≤ 2 / 1000000 := by norm_num
  rw [net_to_gross_gross_eq, abs_le]
  constructor <;> linarith

theorem net_gross_roundtrip_witness :
    ((1 : ℚ)/100 ≤ 60000 ∧ (60000 : ℚ) ≤ 1000000)
      ∧ |(net_to_gross ((gross_to_net 60000).1)).1 - 60000| ≤ (1/10000) * 60000 :=
  ⟨⟨by norm_num, by norm_num⟩,
    net_gross_roundtrip 60000 (by norm_num) (by norm_num)⟩

lemma netOf_2000000 : netOf 2000000 = 5376532/5 := by
  rw [netOf_closed]
  norm_num

lemma net_to_gross_36000_lb :
    (3600 : ℚ) ≤ (net_to_gross 36000 0 2000000).1 := by
  have hlow : netOf 0 < 36000 := by rw [netOf_zero]; norm_num
  have hhigh : (36000 : ℚ) ≤ netOf 2000000 := by rw [netOf_2000000]; norm_num
  obtain ⟨hl, hh⟩ := bisect_invariant 36000 60 0 2000000 hlow hhigh
  obtain ⟨hb1, hb2, hb3⟩ := bisect_bounds 36000 60 0 2000000 (by norm_num)
  have hh2 : (36000 : ℚ) ≤ (bisect 36000 60 (0, 2000000)).2 :=
    le_trans hh (netOf_le_self _)
  rw [net_to_gross_gross_eq]
  linarith

lemma net_to_gross_target_separation (t1 t2 : ℚ)
    (h0 : netOf 0 < t1) (h12 : t1 < t2) (hgap : 4 ≤ t2 - t1)
    (hhi : t2 ≤ netOf 2000000) :
    (net_to_gross t1 0 2000000).1 ≠ (net_to_gross t2 0 2000000).1 := by
  obtain ⟨hl1, hh1⟩ := bisect_invariant t1 60 0 2000000 h0 (le_trans h12.le hhi)
  obtain ⟨hl2, hh2⟩ := bisect_invariant t2 60 0 2000000 (lt_trans h0 h12) hhi
  obtain ⟨hb11, hb12, hb13⟩ := bisect_bounds t1 60 0 2000000 (by norm_num)
  obtain ⟨hb21, hb22, hb23⟩ := bisect_bounds t2 60 0 2000000 (by norm_num)
  have hw1 := bisect_width t1 60 0 2000000
  have hw2 := bisect_width t2 60 0 2000000
  have hmono1 : netOf (((bisect t1 60 ((0 : ℚ), 2000000)).1
      + (bisect t1 60 ((0 : ℚ), 2000000)).2) / 2)
      ≤ netOf (bisect t1 60 ((0 : ℚ), 2000000)).2 := netOf_mono (by linarith)
  have hlip1 : netOf (bisect t1 60 ((0 : ℚ), 2000000)).2
      - netOf (bisect t1 60 ((0 : ℚ), 2000000)).1
      ≤ (bisect t1 60 ((0 : ℚ), 2000000)).2
        - (bisect t1 60 ((0 : ℚ), 2000000)).1 := netOf_lipschitz hb12
  have hmono2 : netOf (bisect t2 60 ((0 : ℚ), 2000000)).1
      ≤ netOf (((bisect t2 60 ((0 : ℚ), 2000000)).1
        + (bisect t2 60 ((0 : ℚ), 2000000)).2) / 2) := netOf_mono (by linarith)
  have hlip2 : netOf (bisect t2 60 ((0 : ℚ), 2000000)).2
      - netOf (bisect t2 60 ((0 : ℚ), 2000000)).1
      ≤ (bisect t2 60 ((0 : ℚ), 2000000)).2
        - (bisect t2 60 ((0 : ℚ), 2000000)).1 := netOf_lipschitz hb22
  intro heq
  rw [net_to_gross_gross_eq, net_to_gross_gross_eq] at heq
  have hnet := congrArg netOf heq
  have hwnum : ((2000000 : ℚ) - 0) / 2 ^ 60 ≤ 1 := by norm_num
  linarith

/-- C1 fails as stated: two affordability requests identical except for
`maintenance_pct` (0 vs 4, price 300000, net monthly 3000, zero rate,
one-year term, LTI 10) give different `mortgage_affordable` (36000 vs
24000), and the corresponding salary projections give different
`gross_by_afford`, because the maintenance estimate enters
`available_for_mortgage_monthly` and `required_net_monthly`. -/
theorem maintenance_feeds_into_affordability :
    (affordability_projection_methods
        (AffordInputs.mk 300000 15 0 1 0 0 0 10 3000 35 0 0)).mortgage_affordable
      ≠ (affordability_projection_methods
          (AffordInputs.mk 300000 15 0 1 0 0 0 10 3000 35 4 0)).mortgage_affordable
    ∧ (salary_projection_methods
        (AffordInputs.mk 300000 15 0 1 0 0 0 10 3000 35 0 0)).gross_by_afford
      ≠ (salary_projection_methods
          (AffordInputs.mk 300000 15 0 1 0 0 0 10 3000 35 4 0)).gross_by_afford := by
  constructor
  · have hG := net_to_gross_36000_lb
    simp only [affordability_projection_methods, monthly_maintenance,
      annual_maintenance]
    norm_num
    rw [min_eq_right (by linarith), min_eq_right (by linarith)]
    norm_num
  · simp only [salary_projection_methods, required_gross_for_affordability,
      monthly_pay, loan_amount, deposit, monthly_maintenance,
      annual_maintenance, monthly_payment]
    norm_num
    exact net_to_gross_target_separation 255000 267000
      (by rw [netOf_zero]; norm_num) (by norm_num) (by norm_num)
      (by rw [netOf_2000000]; norm_num)

/-- C1 (amended): the annual maintenance estimate is reported, but
`maintenance_pct` IS fed back into affordability through
`required_net_monthly` and `available_for_mortgage_monthly`; only the
components that bypass those sums are invariant: for any two requests
identical except for `maintenance_pct`, `salary_projection_methods`
returns the same `gross_by_lti`, and
`affordability_projection_methods` returns the same `gross_annual` and
the same `mortgage_by_lti`; the payment-capped quantities can differ. -/
theorem maintenance_invariant_lti_components (i : AffordInputs) (p q : ℚ) :
    (salary_projection_methods { i with maintenance_pct := p }).gross_by_lti
      = (salary_projection_methods { i with maintenance_pct := q }).gross_by_lti
    ∧ (affordability_projection_methods { i with maintenance_pct := p }).gross_annual
      = (affordability_projection_methods { i with maintenance_pct := q }).gross_annual
    ∧ (affordability_projection_methods { i with maintenance_pct := p }).mortgage_by_lti
      = (affordability_projection_methods { i with maintenance_pct := q }).mortgage_by_lti :=
  ⟨rfl, rfl, rfl⟩
